import Mathlib

/-!
Verification of the AryaXAI agent chat frontend.

The development shallowly embeds the core logic of the repository:

* the streaming session protocol handler of `src/components/ChatInterface.tsx`
  (frame classification in `handleMessage`, submit / retry / reset flows),
* the message-routing predicates of `src/components/ChatMessage.tsx`, and
* the scope resolver of `src/components/AuthPanel.tsx` together with the
  chat gate `allDetailsFilled` of `src/app/page.tsx`.

Modelling conventions:

* Protocol-level text (frames, message content, reasoning, queries, session
  ids) is `List Char`; `cs` converts a literal.  JavaScript `substring(n)`
  is `List.drop n`, `startsWith` is `List.isPrefixOf`.
* JSON values are an opaque type parameter `J`; the host JSON parser is a
  parameter `parse : List Char → Option J`, `none` standing for the
  exception `JSON.parse` throws on malformed input.  An exception thrown
  inside the `onmessage` handler aborts that handler invocation before any
  assignment (leaving all accumulators unchanged) and does not stop the
  socket from delivering later frames.
* `Date.now()` is an explicit clock field `now`, advanced only by the
  environment, so message ids are deterministic functions of the state.
* The WebSocket is a handle ledger `handles : List WsState` indexed by
  handle id, with `wsRef` the index of the current handle; `send` appends
  the outbound payload to `sentPayloads`.
* React state updates inside one event handler are batched, and the runtime
  is single threaded, so each handler is one total function on the state.
-/

namespace AryaXAI

/-- Protocol-level strings as explicit character lists. -/
abbrev Str := List Char

/-- Character list of a string literal. -/
def cs (s : String) : Str := s.toList

inductive Role where
  | user
  | assistant
deriving DecidableEq, Repr

/-- The `Message` record of `ChatInterface.tsx` (fields absent from an
object literal are `none`). -/
structure Message (J : Type) where
  id : Str
  role : Role
  content : Str
  sessionId : Option Str
  reasoning : Option Str
  userQuery : Option Str
  metadata : Option J
  scratchpad : Option J
  tool_response : Option J
deriving DecidableEq

/-- WebSocket readyState values the code distinguishes. -/
inductive WsState where
  | connecting
  | opened
  | closed
deriving DecidableEq, Repr

/-- The outbound request sent once per turn. -/
structure Payload where
  message : Str
  organization : String
  workspace : String
  project : String
  token : String
deriving DecidableEq, Repr

/-- The props of `ChatInterface` (immutable once the session starts). -/
structure Props where
  token : String
  organization : String
  workspace : String
  project : String
deriving DecidableEq, Repr

/-- The per-turn closure variables of `sendMessageToWebSocket`. -/
structure TurnVars (J : Type) where
  fullResponse : Str
  fullReasoning : Str
  metadata : Option J
  scratchpad : Option J
  toolResponse : Option J
  sessionId : Str
  assistantMessageId : Str
  userQuery : Str
deriving DecidableEq

/-- The component state of `ChatInterface` (its `useState` hooks), the
installed turn closure, the socket ledger, the outbound trace and the
clock. -/
structure SystemState (J : Type) where
  messages : List (Message J)
  inputValue : Str
  isLoading : Bool
  streamingMessage : Option (Message J)
  streamingReasoning : Str
  isReasoningActive : Bool
  showReasoningBox : Bool
  isReasoningOpen : Bool
  currentSessionId : Option Str
  speechError : String
  wsConnected : Bool
  reasoningCopied : Bool
  isReasoningSpeaking : Bool
  turn : TurnVars J
  wsRef : Option Nat
  handles : List WsState
  sentPayloads : List Payload
  now : Nat
deriving DecidableEq

/-- The decoded protocol events of the tagged line protocol (§4.2);
JSON-carrying events keep the raw payload text, parsed at application. -/
inductive StreamEvent where
  | streamComplete
  | streamError (errText : Str)
  | metadataReceived (payload : Str)
  | scratchpadReceived (payload : Str)
  | toolResponseReceived (payload : Str)
  | sessionIdReceived (sid : Str)
  | reasoningChunk (fragment : Str)
  | reasoningComplete
  | contentChunk (text : Str)
deriving DecidableEq, Repr

/-- The frame classification of `handleMessage` (ChatInterface.tsx lines
450-524): the if-chain's conditions and `substring` offsets, in source
order, first match winning. -/
def classifyFrame (f : Str) : StreamEvent :=
  if f = cs "[DONE]" then .streamComplete
  else if (cs "[ERROR]").isPrefixOf f then .streamError (f.drop 7)
  else if (cs "[METADATA]").isPrefixOf f then .metadataReceived (f.drop 10)
  else if (cs "[SCRATCHPAD]").isPrefixOf f then .scratchpadReceived (f.drop 12)
  else if (cs "[TOOLRESPONSE]").isPrefixOf f then .toolResponseReceived (f.drop 14)
  else if (cs "[SESSION_ID]").isPrefixOf f then .sessionIdReceived (f.drop 12)
  else if (cs "[REASONING]").isPrefixOf f then .reasoningChunk (f.drop 11)
  else if f = cs "[REASONING_DONE]" then .reasoningComplete
  else .contentChunk f

/-- `user-${Date.now()}`. -/
def mkUserId (n : Nat) : Str := cs "user-" ++ cs (toString n)

/-- `assistant-${Date.now()}`. -/
def mkAssistantId (n : Nat) : Str := cs "assistant-" ++ cs (toString n)

variable {J : Type}

/-- One invocation of the `handleMessage` socket handler (ChatInterface.tsx
lines 446-532): the branch taken is the frame's classification; each branch
performs the source's assignments to the turn closure and the component
state.  A JSON branch whose payload fails to parse (`parse p = none`)
throws before assigning, leaving the whole state unchanged. -/
def handleFrame (parse : Str → Option J) (f : Str) (st : SystemState J) :
    SystemState J :=
  match classifyFrame f with
  | .streamComplete =>
    let m : Message J :=
      { id := st.turn.assistantMessageId
        role := .assistant
        content := st.turn.fullResponse
        reasoning := some st.turn.fullReasoning
        userQuery := some st.turn.userQuery
        sessionId := some st.turn.sessionId
        metadata := st.turn.metadata
        scratchpad := st.turn.scratchpad
        tool_response := st.turn.toolResponse }
    { st with
        messages := st.messages ++ [m]
        streamingMessage := none
        isLoading := false
        isReasoningActive := false
        showReasoningBox := false
        streamingReasoning := [] }
  | .streamError e =>
    let resp := cs "Error: " ++ e
    { st with
        turn := { st.turn with fullResponse := resp }
        streamingMessage := some
          { id := st.turn.assistantMessageId
            role := .assistant
            content := resp
            sessionId := none
            reasoning := none
            userQuery := some st.turn.userQuery
            metadata := none
            scratchpad := none
            tool_response := none }
        isLoading := false
        isReasoningActive := false
        showReasoningBox := false }
  | .metadataReceived p =>
    match parse p with
    | some j => { st with turn := { st.turn with metadata := some j } }
    | none => st
  | .scratchpadReceived p =>
    match parse p with
    | some j => { st with turn := { st.turn with scratchpad := some j } }
    | none => st
  | .toolResponseReceived p =>
    match parse p with
    | some j => { st with turn := { st.turn with toolResponse := some j } }
    | none => st
  | .sessionIdReceived sid =>
    { st with
        turn := { st.turn with sessionId := sid }
        currentSessionId := some sid }
  | .reasoningChunk c =>
    let r := st.turn.fullReasoning ++ c
    { st with
        turn := { st.turn with fullReasoning := r }
        streamingReasoning := r
        isReasoningActive := true
        showReasoningBox := true }
  | .reasoningComplete => { st with isReasoningActive := false }
  | .contentChunk t =>
    let resp := st.turn.fullResponse ++ t
    { st with
        turn := { st.turn with fullResponse := resp }
        streamingMessage := some
          { id := st.turn.assistantMessageId
            role := .assistant
            content := resp
            reasoning := some st.turn.fullReasoning
            userQuery := some st.turn.userQuery
            sessionId := none
            metadata := none
            scratchpad := none
            tool_response := none } }

/-- Deliver a list of frames in order to the installed handler. -/
def processFrames (parse : Str → Option J) (fs : List Str)
    (st : SystemState J) : SystemState J :=
  fs.foldl (fun s f => handleFrame parse f s) st

/-- Truthiness of the current connection check
`wsRef.current && wsRef.current.readyState === WebSocket.OPEN`. -/
def wsOpenB (st : SystemState J) : Bool :=
  match st.wsRef with
  | some i => st.handles.getD i .closed = .opened
  | none => false

/-- `!userQuery.trim()`: the string is empty or whitespace only. -/
def isBlank (s : Str) : Bool := s.all Char.isWhitespace

/-- The outbound payload of `sendMessageToWebSocket`. -/
def mkPayload (props : Props) (q : Str) : Payload :=
  { message := q
    organization := props.organization
    workspace := props.workspace
    project := props.project
    token := props.token }

/-- `sendMessageToWebSocket` (ChatInterface.tsx lines 397-538): push the
user message, clear the input and reasoning UI state, set loading,
initialise the turn closure, send the payload and install the handler. -/
def sendMessageToWebSocket (props : Props) (uq : Str) (st : SystemState J) :
    SystemState J :=
  let userMessage : Message J :=
    { id := mkUserId st.now
      role := .user
      content := uq
      sessionId := none
      reasoning := none
      userQuery := none
      metadata := none
      scratchpad := none
      tool_response := none }
  { st with
      messages := st.messages ++ [userMessage]
      inputValue := []
      isLoading := true
      streamingReasoning := []
      isReasoningActive := false
      showReasoningBox := false
      isReasoningOpen := true
      reasoningCopied := false
      isReasoningSpeaking := false
      turn :=
        { fullResponse := []
          fullReasoning := []
          metadata := none
          scratchpad := none
          toolResponse := none
          sessionId := []
          assistantMessageId := mkAssistantId st.now
          userQuery := uq }
      sentPayloads := st.sentPayloads ++ [mkPayload props uq] }

/-- `handleSubmit` (ChatInterface.tsx lines 382-395): blank-or-loading
guard first, then the connection check (surfacing the not-connected notice
without sending), then the send. -/
def handleSubmit (props : Props) (queryOverride : Option Str)
    (st : SystemState J) : SystemState J :=
  let uq :=
    match queryOverride with
    | some q => if q = [] then st.inputValue else q
    | none => st.inputValue
  if isBlank uq || st.isLoading then st
  else if wsOpenB st then sendMessageToWebSocket props uq st
  else { st with speechError := "WebSocket not connected. Please wait..." }

/-- `handleRetry` (ChatInterface.tsx lines 279-287): drop the last message,
re-populate the input, discard the streaming draft, then resubmit the
original query through `handleSubmit`. -/
def handleRetry (props : Props) (q : Str) (st : SystemState J) :
    SystemState J :=
  handleSubmit props (some q)
    { st with
        messages := st.messages.dropLast
        inputValue := q
        streamingMessage := none }

/-- `handleResetSession` (ChatInterface.tsx lines 289-342): close the
current handle if it is open, clear the whole session state, then open a
fresh handle (a new ledger entry in `connecting` state). -/
def handleResetSession (st : SystemState J) : SystemState J :=
  let hs :=
    match st.wsRef with
    | some i =>
      if st.handles.getD i .closed = .opened then st.handles.set i .closed
      else st.handles
    | none => st.handles
  { st with
      handles := hs ++ [.connecting]
      wsRef := some hs.length
      messages := []
      inputValue := []
      isLoading := false
      streamingMessage := none
      streamingReasoning := []
      isReasoningActive := false
      showReasoningBox := false
      isReasoningOpen := true
      currentSessionId := none
      speechError := ""
      wsConnected := false
      isReasoningSpeaking := false
      reasoningCopied := false }

/-! ### Message routing (`ChatMessage.tsx`) -/

/-- `isError` (ChatMessage.tsx line 60). -/
def isErrorContent (content : Str) : Bool :=
  (cs "Error:").isPrefixOf content || content = cs "Connection error occurred"

/-- JavaScript truthiness of an optional string field. -/
def optTruthy (o : Option Str) : Bool :=
  match o with
  | some s => !s.isEmpty
  | none => false

/-- The error-styled block is rendered (line 195). -/
def errorStylingShown (m : Message J) : Bool := isErrorContent m.content

/-- The retry button is rendered (lines 219 and 266). -/
def retryShown (m : Message J) (isStreaming : Bool) : Bool :=
  !isStreaming && isErrorContent m.content && optTruthy m.userQuery

/-- The read-aloud (text-to-speech) button is rendered (lines 219 and
243). -/
def ttsShown (m : Message J) (isStreaming : Bool) : Bool :=
  !isStreaming && !isErrorContent m.content

/-- The feedback (thumbs) controls are rendered (line 394). -/
def feedbackShown (m : Message J) (isStreaming isLastMessage : Bool) : Bool :=
  (m.role == .assistant) && isLastMessage && !isStreaming &&
    optTruthy m.sessionId && !isErrorContent m.content

/-! ### Scope resolver (`AuthPanel.tsx`) and the chat gate (`page.tsx`) -/

/-- The scope-resolution state of `AuthPanel` (its `useState` hooks plus
the lifted selections of `page.tsx`). -/
structure ScopeState where
  token : String
  verified : Bool
  organizations : List String
  workspaces : List String
  projects : List String
  organization : String
  workspace : String
  project : String
  showOrgWarning : Bool
  showWorkspaceWarning : Bool
  showProjectWarning : Bool
  orgsFetched : Bool
  workspacesFetched : Bool
  projectsFetched : Bool
deriving DecidableEq, Repr

/-- Completion of the organization fetch (AuthPanel.tsx lines 404-439):
`some list` is a 2xx response body, `none` the catch branch (network
failure).  Zero items clear every selection, warn at the organization
level, and mark the deeper levels fetched. -/
def applyOrgFetch (result : Option (List String)) (st : ScopeState) :
    ScopeState :=
  match result with
  | some orgList =>
    if orgList.length = 0 then
      { st with
          organizations := orgList
          orgsFetched := true
          organization := ""
          workspace := ""
          project := ""
          showOrgWarning := true
          workspacesFetched := true
          projectsFetched := true }
    else
      { st with
          organizations := orgList
          orgsFetched := true
          showOrgWarning := false }
  | none =>
    { st with
        organizations := []
        organization := ""
        workspace := ""
        project := ""
        showOrgWarning := true
        orgsFetched := true
        workspacesFetched := true
        projectsFetched := true }

/-- `value && value !== '--Select--'`. -/
def nonSentinel (s : String) : Bool := s != "" && s != "--Select--"

/-- `setupComplete` (AuthPanel.tsx lines 530-537): computed by the panel
(and allowing empty scope levels), but never used by the render. -/
def setupComplete (st : ScopeState) : Bool :=
  st.verified &&
    ((st.orgsFetched && st.organizations.isEmpty) ||
     (st.workspacesFetched && st.workspaces.isEmpty) ||
     (st.projectsFetched && st.projects.isEmpty) ||
     (nonSentinel st.organization && nonSentinel st.workspace &&
       nonSentinel st.project))

/-- `allDetailsFilled` (page.tsx lines 25-33): the actual gate in front of
`ChatInterface`. -/
def allDetailsFilled (token : String) (verified : Bool)
    (org ws proj : String) : Bool :=
  token != "" && verified && nonSentinel org && nonSentinel ws &&
    nonSentinel proj

/-! ### Concrete demonstration states -/

/-- A trivially failing JSON parser over opaque values `Nat`. -/
def parseNone : Str → Option Nat := fun _ => none

/-- A trivially succeeding JSON parser over opaque values `Nat`. -/
def parseZero : Str → Option Nat := fun _ => some 0

def demoProps : Props :=
  { token := "tok", organization := "org", workspace := "ws",
    project := "proj" }

/-- An idle session with one open connection handle. -/
def demoState : SystemState Nat :=
  { messages := []
    inputValue := []
    isLoading := false
    streamingMessage := none
    streamingReasoning := []
    isReasoningActive := false
    showReasoningBox := false
    isReasoningOpen := true
    currentSessionId := none
    speechError := ""
    wsConnected := true
    reasoningCopied := false
    isReasoningSpeaking := false
    turn :=
      { fullResponse := []
        fullReasoning := []
        metadata := none
        scratchpad := none
        toolResponse := none
        sessionId := []
        assistantMessageId := []
        userQuery := [] }
    wsRef := some 0
    handles := [.opened]
    sentPayloads := []
    now := 5 }


/-- The `[REASONING]` payloads of a frame list, in order. -/
def reasoningFragments (fs : List Str) : List Str :=
  fs.filterMap fun f =>
    match classifyFrame f with
    | .reasoningChunk c => some c
    | _ => none


/-- The demo session right after submitting the query `q`. -/
def demoSubmitted : SystemState Nat :=
  sendMessageToWebSocket demoProps (cs "q") demoState

/-- The scope state right after a successful token verification, before
the organization fetch completes. -/
def scopeStart : ScopeState :=
  { token := "tok"
    verified := true
    organizations := []
    workspaces := []
    projects := []
    organization := ""
    workspace := ""
    project := ""
    showOrgWarning := false
    showWorkspaceWarning := false
    showProjectWarning := false
    orgsFetched := false
    workspacesFetched := false
    projectsFetched := false }

/-- A session with no connection handle while a request is marked in
flight. -/
def loadingState : SystemState Nat :=
  { demoState with isLoading := true, wsRef := none, handles := [] }


/-! ### Prefix and classification lemmas -/

/-- Two lists neither of which is a prefix of the other have no common
extension: a frame matching tag `t2` cannot also match tag `t1`. -/
theorem tagNoClash {t1 t2 : Str} (f : Str)
    (h12 : t1.isPrefixOf t2 = false) (h21 : t2.isPrefixOf t1 = false)
    (h : t2.isPrefixOf f = true) : t1.isPrefixOf f = false := by
  by_contra hc
  rw [Bool.not_eq_false] at hc
  have hc' := List.isPrefixOf_iff_prefix.mp hc
  have h' := List.isPrefixOf_iff_prefix.mp h
  rcases List.prefix_or_prefix_of_prefix hc' h' with hh | hh
  · have ht := List.isPrefixOf_iff_prefix.mpr hh
    rw [h12] at ht
    exact Bool.false_ne_true ht
  · have ht := List.isPrefixOf_iff_prefix.mpr hh
    rw [h21] at ht
    exact Bool.false_ne_true ht

theorem classify_eq_streamError (f : Str)
    (h : (cs "[ERROR]").isPrefixOf f = true) :
    classifyFrame f = .streamError (f.drop 7) := by
  have hne : f ≠ cs "[DONE]" := by rintro rfl; revert h; decide
  unfold classifyFrame
  rw [if_neg hne, if_pos h]

theorem classify_eq_metadata (f : Str)
    (h : (cs "[METADATA]").isPrefixOf f = true) :
    classifyFrame f = .metadataReceived (f.drop 10) := by
  have hne : f ≠ cs "[DONE]" := by rintro rfl; revert h; decide
  have hE := @tagNoClash (cs "[ERROR]") (cs "[METADATA]") f (by decide) (by decide) h
  unfold classifyFrame
  rw [if_neg hne, if_neg (by simp [hE]), if_pos h]

theorem classify_eq_scratchpad (f : Str)
    (h : (cs "[SCRATCHPAD]").isPrefixOf f = true) :
    classifyFrame f = .scratchpadReceived (f.drop 12) := by
  have hne : f ≠ cs "[DONE]" := by rintro rfl; revert h; decide
  have hE := @tagNoClash (cs "[ERROR]") (cs "[SCRATCHPAD]") f (by decide) (by decide) h
  have hM := @tagNoClash (cs "[METADATA]") (cs "[SCRATCHPAD]") f (by decide) (by decide) h
  unfold classifyFrame
  rw [if_neg hne, if_neg (by simp [hE]), if_neg (by simp [hM]), if_pos h]

theorem classify_eq_toolResponse (f : Str)
    (h : (cs "[TOOLRESPONSE]").isPrefixOf f = true) :
    classifyFrame f = .toolResponseReceived (f.drop 14) := by
  have hne : f ≠ cs "[DONE]" := by rintro rfl; revert h; decide
  have hE := @tagNoClash (cs "[ERROR]") (cs "[TOOLRESPONSE]") f (by decide) (by decide) h
  have hM := @tagNoClash (cs "[METADATA]") (cs "[TOOLRESPONSE]") f (by decide) (by decide) h
  have hS := @tagNoClash (cs "[SCRATCHPAD]") (cs "[TOOLRESPONSE]") f (by decide) (by decide) h
  unfold classifyFrame
  rw [if_neg hne, if_neg (by simp [hE]), if_neg (by simp [hM]),
    if_neg (by simp [hS]), if_pos h]

theorem classify_eq_sessionId (f : Str)
    (h : (cs "[SESSION_ID]").isPrefixOf f = true) :
    classifyFrame f = .sessionIdReceived (f.drop 12) := by
  have hne : f ≠ cs "[DONE]" := by rintro rfl; revert h; decide
  have hE := @tagNoClash (cs "[ERROR]") (cs "[SESSION_ID]") f (by decide) (by decide) h
  have hM := @tagNoClash (cs "[METADATA]") (cs "[SESSION_ID]") f (by decide) (by decide) h
  have hS := @tagNoClash (cs "[SCRATCHPAD]") (cs "[SESSION_ID]") f (by decide) (by decide) h
  have hT := @tagNoClash (cs "[TOOLRESPONSE]") (cs "[SESSION_ID]") f (by decide) (by decide) h
  unfold classifyFrame
  rw [if_neg hne, if_neg (by simp [hE]), if_neg (by simp [hM]),
    if_neg (by simp [hS]), if_neg (by simp [hT]), if_pos h]

theorem classify_eq_reasoning (f : Str)
    (h : (cs "[REASONING]").isPrefixOf f = true) :
    classifyFrame f = .reasoningChunk (f.drop 11) := by
  have hne : f ≠ cs "[DONE]" := by rintro rfl; revert h; decide
  have hE := @tagNoClash (cs "[ERROR]") (cs "[REASONING]") f (by decide) (by decide) h
  have hM := @tagNoClash (cs "[METADATA]") (cs "[REASONING]") f (by decide) (by decide) h
  have hS := @tagNoClash (cs "[SCRATCHPAD]") (cs "[REASONING]") f (by decide) (by decide) h
  have hT := @tagNoClash (cs "[TOOLRESPONSE]") (cs "[REASONING]") f (by decide) (by decide) h
  have hI := @tagNoClash (cs "[SESSION_ID]") (cs "[REASONING]") f (by decide) (by decide) h
  unfold classifyFrame
  rw [if_neg hne, if_neg (by simp [hE]), if_neg (by simp [hM]),
    if_neg (by simp [hS]), if_neg (by simp [hT]), if_neg (by simp [hI]),
    if_pos h]

theorem classify_eq_content (f : Str)
    (h1 : f ≠ cs "[DONE]") (h2 : f ≠ cs "[REASONING_DONE]")
    (hE : (cs "[ERROR]").isPrefixOf f = false)
    (hM : (cs "[METADATA]").isPrefixOf f = false)
    (hS : (cs "[SCRATCHPAD]").isPrefixOf f = false)
    (hT : (cs "[TOOLRESPONSE]").isPrefixOf f = false)
    (hI : (cs "[SESSION_ID]").isPrefixOf f = false)
    (hR : (cs "[REASONING]").isPrefixOf f = false) :
    classifyFrame f = .contentChunk f := by
  unfold classifyFrame
  rw [if_neg h1, if_neg (by simp [hE]), if_neg (by simp [hM]),
    if_neg (by simp [hS]), if_neg (by simp [hT]), if_neg (by simp [hI]),
    if_neg (by simp [hR]), if_neg h2]

theorem classify_streamError_append (rest : Str) :
    classifyFrame (cs "[ERROR]" ++ rest) = .streamError rest := by
  have h := classify_eq_streamError (cs "[ERROR]" ++ rest)
    ( List.isPrefixOf_iff_prefix.mpr (List.prefix_append _ _))
  rw [h]
  have h7 : (7 : Nat) = (cs "[ERROR]").length := by decide
  rw [h7, List.drop_left]



/-! ### Accumulation lemmas for frame processing -/

/-- The reasoning accumulator grows by exactly the payload of each
`[REASONING]` frame and by nothing else. -/
theorem handleFrame_fullReasoning (parse : Str → Option J) (f : Str)
    (st : SystemState J) :
    (handleFrame parse f st).turn.fullReasoning =
      st.turn.fullReasoning ++
        (match classifyFrame f with
         | .reasoningChunk c => c
         | _ => []) := by
  cases h : classifyFrame f <;>
    simp [handleFrame, h]
  case metadataReceived p => cases parse p <;> simp
  case scratchpadReceived p => cases parse p <;> simp
  case toolResponseReceived p => cases parse p <;> simp

/-- Over any frame list, the reasoning accumulator ends as the prior value
followed by the in-order concatenation of all reasoning payloads. -/
theorem processFrames_fullReasoning (parse : Str → Option J) (fs : List Str)
    (st : SystemState J) :
    (processFrames parse fs st).turn.fullReasoning =
      st.turn.fullReasoning ++ (reasoningFragments fs).flatten := by
  induction fs generalizing st with
  | nil => simp [processFrames, reasoningFragments]
  | cons f fsI ih =>
    simp only [processFrames, List.foldl_cons] at ih ⊢
    rw [ih, handleFrame_fullReasoning]
    cases h : classifyFrame f <;>
      simp [reasoningFragments, List.filterMap_cons, h]

/-- Content frames append to the content accumulator and touch neither the
rest of the turn closure nor the message list. -/
theorem processFrames_content (parse : Str → Option J) (fs : List Str)
    (st : SystemState J) (h : ∀ f ∈ fs, classifyFrame f = .contentChunk f) :
    (processFrames parse fs st).turn =
      { st.turn with fullResponse := st.turn.fullResponse ++ fs.flatten } ∧
    (processFrames parse fs st).messages = st.messages := by
  induction fs generalizing st with
  | nil => simp [processFrames]
  | cons f fsI ih =>
    have hf := h f (by simp)
    simp only [processFrames, List.foldl_cons] at ih ⊢
    have step := ih (handleFrame parse f st) (fun g hg => h g (by simp [hg]))
    rcases step with ⟨h1, h2⟩
    refine ⟨?_, ?_⟩
    · rw [h1]
      simp [handleFrame, hf, List.append_assoc]
    · rw [h2]
      simp [handleFrame, hf]


/-! ### C1: decoder precedence and offsets -/

/-- C1.  Every inbound frame is classified by the fixed rule table of
`handleMessage`: the exact literal `[DONE]` gives `streamComplete`; a
`[ERROR]` prefix gives `streamError` with the text from offset 7; a
`[METADATA]` / `[SCRATCHPAD]` / `[TOOLRESPONSE]` prefix gives the JSON
event with the payload from offsets 10 / 12 / 14 (attached to the turn
accumulator when the payload parses); a `[SESSION_ID]` prefix gives the
session id from offset 12; a `[REASONING]` prefix gives the fragment from
offset 11; the literal `[REASONING_DONE]` gives `reasoningComplete`; and a
frame matching no tag is a content chunk appended verbatim, with no added
whitespace, to the accumulated content.  The tags are pairwise
non-overlapping, so these per-rule characterisations determine the
first-match-wins chain completely. -/
theorem c1_decoder_fixed_precedence {J : Type} :
    (classifyFrame (cs "[DONE]") = .streamComplete) ∧
    (∀ f : Str, (cs "[ERROR]").isPrefixOf f = true →
      classifyFrame f = .streamError (f.drop 7)) ∧
    (∀ f : Str, (cs "[METADATA]").isPrefixOf f = true →
      classifyFrame f = .metadataReceived (f.drop 10)) ∧
    (∀ f : Str, (cs "[SCRATCHPAD]").isPrefixOf f = true →
      classifyFrame f = .scratchpadReceived (f.drop 12)) ∧
    (∀ f : Str, (cs "[TOOLRESPONSE]").isPrefixOf f = true →
      classifyFrame f = .toolResponseReceived (f.drop 14)) ∧
    (∀ f : Str, (cs "[SESSION_ID]").isPrefixOf f = true →
      classifyFrame f = .sessionIdReceived (f.drop 12)) ∧
    (∀ f : Str, (cs "[REASONING]").isPrefixOf f = true →
      classifyFrame f = .reasoningChunk (f.drop 11)) ∧
    (classifyFrame (cs "[REASONING_DONE]") = .reasoningComplete) ∧
    (∀ f : Str, f ≠ cs "[DONE]" → f ≠ cs "[REASONING_DONE]" →
      (cs "[ERROR]").isPrefixOf f = false →
      (cs "[METADATA]").isPrefixOf f = false →
      (cs "[SCRATCHPAD]").isPrefixOf f = false →
      (cs "[TOOLRESPONSE]").isPrefixOf f = false →
      (cs "[SESSION_ID]").isPrefixOf f = false →
      (cs "[REASONING]").isPrefixOf f = false →
      classifyFrame f = .contentChunk f ∧
      ∀ (parse : Str → Option J) (st : SystemState J),
        (handleFrame parse f st).turn.fullResponse =
          st.turn.fullResponse ++ f) ∧
    (∀ (parse : Str → Option J) (f p : Str) (j : J) (st : SystemState J),
      parse p = some j →
      (classifyFrame f = .metadataReceived p →
        (handleFrame parse f st).turn.metadata = some j) ∧
      (classifyFrame f = .scratchpadReceived p →
        (handleFrame parse f st).turn.scratchpad = some j) ∧
      (classifyFrame f = .toolResponseReceived p →
        (handleFrame parse f st).turn.toolResponse = some j)) := by
  refine ⟨by decide, classify_eq_streamError, classify_eq_metadata,
    classify_eq_scratchpad, classify_eq_toolResponse, classify_eq_sessionId,
    classify_eq_reasoning, by decide, ?_, ?_⟩
  · intro f h1 h2 hE hM hS hT hI hR
    have hc := classify_eq_content f h1 h2 hE hM hS hT hI hR
    exact ⟨hc, fun parse st => by simp [handleFrame, hc]⟩
  · intro parse f p j st hp
    exact ⟨fun hc => by simp [handleFrame, hc, hp],
      fun hc => by simp [handleFrame, hc, hp],
      fun hc => by simp [handleFrame, hc, hp]⟩

/-- Witness for C1 at concrete frames. -/
theorem c1_decoder_fixed_precedence_witness :
    classifyFrame (cs "[ERROR]rate limited") =
      .streamError (cs "rate limited") ∧
    classifyFrame (cs "[METADATA]17") = .metadataReceived (cs "17") ∧
    classifyFrame (cs "plain text") = .contentChunk (cs "plain text") ∧
    (handleFrame parseZero (cs "plain text") demoState).turn.fullResponse =
      demoState.turn.fullResponse ++ cs "plain text" := by
  have h := @c1_decoder_fixed_precedence Nat
  refine ⟨?_, ?_, ?_, ?_⟩
  · have := h.2.1 (cs "[ERROR]rate limited") (by decide)
    simpa using this
  · have := h.2.2.1 (cs "[METADATA]17") (by decide)
    simpa using this
  · exact (h.2.2.2.2.2.2.2.2.1 (cs "plain text") (by decide) (by decide)
      (by decide) (by decide) (by decide) (by decide) (by decide)
      (by decide)).1
  · exact (h.2.2.2.2.2.2.2.2.1 (cs "plain text") (by decide) (by decide)
      (by decide) (by decide) (by decide) (by decide) (by decide)
      (by decide)).2 parseZero demoState

/-! ### C2: an `[ERROR]` frame does not materialize a list Message -/

/-- C2 counterexample.  After submitting `q` and receiving
`[ERROR]rate limited`, the message list still holds only the user message:
no assistant Message is appended (the claim says the error finalizes into
the message list just as `[DONE]` does).  The error text lives only in the
streaming draft, loading is cleared, and no session id is attached. -/
theorem c2_error_not_materialized_counterexample :
    (handleFrame parseNone (cs "[ERROR]rate limited")
        (sendMessageToWebSocket demoProps (cs "q") demoState)).messages =
      (sendMessageToWebSocket demoProps (cs "q") demoState).messages ∧
    ((handleFrame parseNone (cs "[ERROR]rate limited")
        (sendMessageToWebSocket demoProps (cs "q") demoState)).messages.filter
      (fun m => m.role == Role.assistant)) = [] ∧
    (handleFrame parseNone (cs "[ERROR]rate limited")
        (sendMessageToWebSocket demoProps (cs "q") demoState)).streamingMessage =
      some
        { id := mkAssistantId 5
          role := .assistant
          content := cs "Error: rate limited"
          sessionId := none
          reasoning := none
          userQuery := some (cs "q")
          metadata := none
          scratchpad := none
          tool_response := none } ∧
    (handleFrame parseNone (cs "[ERROR]rate limited")
        (sendMessageToWebSocket demoProps (cs "q") demoState)).isLoading =
      false := by
  decide

/-- C2 amended.  An `[ERROR]` frame ends the turn with an error assistant
Message of content `Error: ` ++ rest carrying the original user query and
no session id, but the Message is retained as the streaming draft rather
than appended to the message list; loading, the reasoning indicator and
the reasoning container are cleared, while the message list and the
reasoning draft text are left as they were. -/
theorem c2_stream_error_amended {J : Type} (parse : Str → Option J)
    (rest : Str) (st : SystemState J) :
    handleFrame parse (cs "[ERROR]" ++ rest) st =
      { st with
          turn := { st.turn with fullResponse := cs "Error: " ++ rest }
          streamingMessage := some
            { id := st.turn.assistantMessageId
              role := .assistant
              content := cs "Error: " ++ rest
              sessionId := none
              reasoning := none
              userQuery := some st.turn.userQuery
              metadata := none
              scratchpad := none
              tool_response := none }
          isLoading := false
          isReasoningActive := false
          showReasoningBox := false } := by
  simp [handleFrame, classify_streamError_append]

/-! ### C3: malformed JSON payloads leave the state untouched -/

/-- C3.  A tagged JSON payload frame whose payload does not parse leaves
the whole reducer state unchanged (the side-channel accumulator keeps its
last value, content and reasoning are untouched), and the remaining frames
of the turn decode exactly as if the bad frame had not arrived. -/
theorem c3_malformed_json_no_corruption {J : Type} (parse : Str → Option J)
    (f p : Str) (st : SystemState J) (rest : List Str)
    (htag : classifyFrame f = .metadataReceived p ∨
      classifyFrame f = .scratchpadReceived p ∨
      classifyFrame f = .toolResponseReceived p)
    (hbad : parse p = none) :
    handleFrame parse f st = st ∧
    processFrames parse (f :: rest) st = processFrames parse rest st := by
  have h1 : handleFrame parse f st = st := by
    rcases htag with h | h | h <;> simp [handleFrame, h, hbad]
  exact ⟨h1, by simp [processFrames, List.foldl_cons, h1]⟩

/-- Witness for C3: a `[METADATA]` frame whose payload is not JSON. -/
theorem c3_malformed_json_no_corruption_witness :
    handleFrame parseNone (cs "[METADATA]notjson") demoState = demoState ∧
    processFrames parseNone [cs "[METADATA]notjson", cs "chunk"] demoState =
      processFrames parseNone [cs "chunk"] demoState :=
  c3_malformed_json_no_corruption parseNone (cs "[METADATA]notjson")
    (cs "notjson") demoState [cs "chunk"] (Or.inl (by decide)) rfl

/-! ### C8: untagged frames concatenate into the finalized content -/

/-- C8.  A turn whose inbound frames are untagged content frames followed
by `[DONE]` finalizes an assistant Message whose content is the in-order
concatenation of the frames with no inserted separators; in particular
`"Hello "`, `"world"`, `[DONE]` gives content `Hello world`. -/
theorem c8_content_concatenation {J : Type} (parse : Str → Option J)
    (props : Props) (q : Str) (S0 : SystemState J) (fs : List Str)
    (h : ∀ f ∈ fs, classifyFrame f = .contentChunk f) :
    (processFrames parse (fs ++ [cs "[DONE]"])
        (sendMessageToWebSocket props q S0)).messages =
      (sendMessageToWebSocket props q S0).messages ++
        [{ id := mkAssistantId S0.now
           role := .assistant
           content := fs.flatten
           sessionId := some []
           reasoning := some []
           userQuery := some q
           metadata := none
           scratchpad := none
           tool_response := none }] ∧
    (processFrames parseNone [cs "Hello ", cs "world", cs "[DONE]"]
        (sendMessageToWebSocket demoProps (cs "q") demoState)).messages.map
      (fun m => m.content) = [cs "q", cs "Hello world"] := by
  constructor
  · have hc := processFrames_content parse fs
      (sendMessageToWebSocket props q S0) h
    rcases hc with ⟨ht, hm⟩
    have hsplit : processFrames parse (fs ++ [cs "[DONE]"])
        (sendMessageToWebSocket props q S0) =
        handleFrame parse (cs "[DONE]")
          (processFrames parse fs (sendMessageToWebSocket props q S0)) := by
      simp [processFrames, List.foldl_append]
    rw [hsplit]
    have hdone : classifyFrame (cs "[DONE]") = .streamComplete := by decide
    simp only [handleFrame, hdone]
    rw [hm, ht]
    simp [sendMessageToWebSocket]
  · decide

/-- Witness for C8 at the spec's example frames. -/
theorem c8_content_concatenation_witness :
    (processFrames parseNone ([cs "Hello ", cs "world"] ++ [cs "[DONE]"])
        (sendMessageToWebSocket demoProps (cs "q") demoState)).messages =
      (sendMessageToWebSocket demoProps (cs "q") demoState).messages ++
        [{ id := mkAssistantId 5
           role := .assistant
           content := [cs "Hello ", cs "world"].flatten
           sessionId := some []
           reasoning := some []
           userQuery := some (cs "q")
           metadata := none
           scratchpad := none
           tool_response := none }] :=
  (c8_content_concatenation parseNone demoProps (cs "q") demoState
    [cs "Hello ", cs "world"] (by decide)).1


/-! ### C4: reasoning visibility across the turn -/

/-- C4.  Within a turn: a `[REASONING]` frame makes the reasoning
container visible and the thinking indicator active; every frame other
than `[DONE]` and `[ERROR]` keeps a visible container visible;
`[REASONING_DONE]` turns the indicator off and changes nothing else (so
the container stays); the reasoning accumulator always ends as the prior
value followed by the in-order concatenation of the `[REASONING]`
payloads; and on the spec's example trace the container is visible from
the first reasoning frame through the frame before `[DONE]`, the
indicator goes off at `[REASONING_DONE]`, and the finalized Message's
reasoning is `Step 1... Step 2`. -/
theorem c4_reasoning_visibility {J : Type} (parse : Str → Option J) :
    (∀ (f : Str) (st : SystemState J) (c : Str),
      classifyFrame f = .reasoningChunk c →
      (handleFrame parse f st).showReasoningBox = true ∧
      (handleFrame parse f st).isReasoningActive = true) ∧
    (∀ (f : Str) (st : SystemState J), classifyFrame f ≠ .streamComplete →
      (∀ e, classifyFrame f ≠ .streamError e) →
      st.showReasoningBox = true →
      (handleFrame parse f st).showReasoningBox = true) ∧
    (∀ (f : Str) (st : SystemState J), classifyFrame f = .reasoningComplete →
      handleFrame parse f st = { st with isReasoningActive := false }) ∧
    (∀ (fs : List Str) (st : SystemState J),
      (processFrames parse fs st).turn.fullReasoning =
        st.turn.fullReasoning ++ (reasoningFragments fs).flatten) ∧
    (([[cs "[REASONING]Step 1"],
       [cs "[REASONING]Step 1", cs "[REASONING]... Step 2",
        cs "[REASONING_DONE]"],
       [cs "[REASONING]Step 1", cs "[REASONING]... Step 2",
        cs "[REASONING_DONE]", cs "Answer"]].map
      (fun fs => ((processFrames parseNone fs demoSubmitted).showReasoningBox,
        (processFrames parseNone fs demoSubmitted).isReasoningActive))) =
      [(true, true), (true, false), (true, false)]) ∧
    ((processFrames parseNone
        [cs "[REASONING]Step 1", cs "[REASONING]... Step 2",
         cs "[REASONING_DONE]", cs "Answer", cs "[DONE]"]
        demoSubmitted).messages.map (fun m => m.reasoning) =
      [none, some (cs "Step 1... Step 2")]) := by
  refine ⟨?_, ?_, ?_, processFrames_fullReasoning parse, by decide, by decide⟩
  · intro f st c h
    exact ⟨by simp [handleFrame, h], by simp [handleFrame, h]⟩
  · intro f st h1 h2 hbox
    cases hclass : classifyFrame f with
    | streamComplete => exact absurd hclass h1
    | streamError e => exact absurd hclass (h2 e)
    | metadataReceived p =>
      cases hp : parse p <;> simp [handleFrame, hclass, hp, hbox]
    | scratchpadReceived p =>
      cases hp : parse p <;> simp [handleFrame, hclass, hp, hbox]
    | toolResponseReceived p =>
      cases hp : parse p <;> simp [handleFrame, hclass, hp, hbox]
    | sessionIdReceived sid => simp [handleFrame, hclass, hbox]
    | reasoningChunk c => simp [handleFrame, hclass]
    | reasoningComplete => simp [handleFrame, hclass, hbox]
    | contentChunk t => simp [handleFrame, hclass, hbox]
  · intro f st h
    simp [handleFrame, h]

/-- Witness for C4 at concrete frames and states. -/
theorem c4_reasoning_visibility_witness :
    ((handleFrame parseNone (cs "[REASONING]Step 1") demoSubmitted).showReasoningBox =
      true ∧
     (handleFrame parseNone (cs "[REASONING]Step 1") demoSubmitted).isReasoningActive =
      true) ∧
    (handleFrame parseNone (cs "Answer")
        { demoSubmitted with showReasoningBox := true }).showReasoningBox = true ∧
    handleFrame parseNone (cs "[REASONING_DONE]")
        { demoSubmitted with showReasoningBox := true } =
      { { demoSubmitted with showReasoningBox := true } with
          isReasoningActive := false } := by
  have h := @c4_reasoning_visibility Nat parseNone
  have hAns : classifyFrame (cs "Answer") = .contentChunk (cs "Answer") := by
    decide
  refine ⟨h.1 _ _ (cs "Step 1") (by decide), ?_, ?_⟩
  · exact h.2.1 (cs "Answer") _ (by simp [hAns]) (fun e => by simp [hAns])
      (by decide)
  · exact h.2.2.1 (cs "[REASONING_DONE]") _ (by decide)

/-! ### C6: zero organizations versus the chat gate -/

/-- C6.  When the organization fetch returns zero items, the resolver
clears all three selections, warns at the organization level only, marks
the deeper levels fetched with empty candidate lists, and its own
`setupComplete` flag allows the session — but the fetch-failure case is
handled identically, and the page gate `allDetailsFilled` (the condition
that actually renders `ChatInterface`) is false on the resulting empty
scope, so the chat session does **not** become available: `setupComplete`
is computed and never used. -/
theorem c6_zero_orgs_scope_gate :
    (applyOrgFetch (some []) scopeStart).organization = "" ∧
    (applyOrgFetch (some []) scopeStart).workspace = "" ∧
    (applyOrgFetch (some []) scopeStart).project = "" ∧
    (applyOrgFetch (some []) scopeStart).showOrgWarning = true ∧
    (applyOrgFetch (some []) scopeStart).showWorkspaceWarning = false ∧
    (applyOrgFetch (some []) scopeStart).showProjectWarning = false ∧
    (applyOrgFetch (some []) scopeStart).orgsFetched = true ∧
    (applyOrgFetch (some []) scopeStart).workspacesFetched = true ∧
    (applyOrgFetch (some []) scopeStart).projectsFetched = true ∧
    (applyOrgFetch (some []) scopeStart).workspaces = [] ∧
    (applyOrgFetch (some []) scopeStart).projects = [] ∧
    setupComplete (applyOrgFetch (some []) scopeStart) = true ∧
    applyOrgFetch none scopeStart = applyOrgFetch (some []) scopeStart ∧
    allDetailsFilled (applyOrgFetch (some []) scopeStart).token
      (applyOrgFetch (some []) scopeStart).verified
      (applyOrgFetch (some []) scopeStart).organization
      (applyOrgFetch (some []) scopeStart).workspace
      (applyOrgFetch (some []) scopeStart).project = false := by
  decide

/-! ### C9: submitting while not connected -/

/-- C9 counterexample.  In a state whose connection handle is absent but
where `isLoading` is still set, submitting the non-empty query `hi` is a
silent no-op: the loading guard runs before the connection check, so no
"not connected" condition is surfaced (`speechError` stays empty), against
the claim's "for every state ... fails with a not connected condition
surfaced". -/
theorem c9_silent_when_loading_counterexample :
    wsOpenB loadingState = false ∧
    loadingState.isLoading = true ∧
    handleSubmit demoProps (some (cs "hi")) loadingState = loadingState ∧
    loadingState.speechError = "" := by
  decide

/-- C9 amended.  When no request is in flight and the query is not blank,
submitting while the connection handle is absent or not open surfaces the
"not connected" notice and changes nothing else: the query is neither sent
nor queued (`sentPayloads` untouched) and the message list is exactly as
before. -/
theorem c9_not_connected_amended {J : Type} (props : Props) (q : Str)
    (st : SystemState J) (hq : isBlank q = false)
    (hload : st.isLoading = false) (hws : wsOpenB st = false) :
    handleSubmit props (some q) st =
      { st with speechError := "WebSocket not connected. Please wait..." } := by
  have hq' : ¬q = [] := by
    intro h
    rw [h] at hq
    simp [isBlank] at hq
  simp [handleSubmit, hq', hq, hload, hws]

/-- Witness for C9's amended statement. -/
theorem c9_not_connected_amended_witness :
    handleSubmit demoProps (some (cs "hi")) { demoState with wsRef := none } =
      { { demoState with wsRef := none } with
          speechError := "WebSocket not connected. Please wait..." } :=
  c9_not_connected_amended demoProps (cs "hi") { demoState with wsRef := none }
    (by decide) (by decide) (by decide)

/-! ### C10: the error presentation predicate -/

/-- C10.  A rendered assistant message takes the error presentation path
exactly when its content starts with `Error:` or equals
`Connection error occurred`: then it gets the error styling, the retry
affordance whenever its `userQuery` is a non-empty string, and neither the
text-to-speech control nor the feedback controls; any other content gets
the normal styling with text-to-speech and no retry.  Consequently a
successfully completed (`[DONE]`-finalized) response whose genuine content
begins with `Error:` is also routed to the error path. -/
theorem c10_error_routing {J : Type} :
    (∀ m : Message J, errorStylingShown m = true ↔
      ((cs "Error:").isPrefixOf m.content = true ∨
        m.content = cs "Connection error occurred")) ∧
    (∀ m : Message J, isErrorContent m.content = true →
      ttsShown m false = false ∧
      ∀ lastFlag, feedbackShown m false lastFlag = false) ∧
    (∀ m : Message J, isErrorContent m.content = true →
      optTruthy m.userQuery = true → retryShown m false = true) ∧
    (∀ m : Message J, isErrorContent m.content = false →
      errorStylingShown m = false ∧ retryShown m false = false ∧
      ttsShown m false = true) ∧
    ((processFrames parseNone [cs "Error: quota exhausted", cs "[DONE]"]
        demoSubmitted).messages.map
      (fun m => (m.role, errorStylingShown m, ttsShown m false)) =
      [(.user, false, true), (.assistant, true, false)]) := by
  refine ⟨?_, ?_, ?_, ?_, by decide⟩
  · intro m
    simp [errorStylingShown, isErrorContent]
  · intro m h
    refine ⟨by simp [ttsShown, h], fun lastFlag => by simp [feedbackShown, h]⟩
  · intro m h hq
    simp [retryShown, h, hq]
  · intro m h
    exact ⟨by simp [errorStylingShown, h], by simp [retryShown, h],
      by simp [ttsShown, h]⟩

/-- Witness for C10 at concrete messages. -/
theorem c10_error_routing_witness :
    ttsShown
      { id := [], role := Role.assistant, content := cs "Error: rate limited",
        sessionId := none, reasoning := none, userQuery := some (cs "q"),
        metadata := (none : Option Nat), scratchpad := none,
        tool_response := none } false = false ∧
    retryShown
      { id := [], role := Role.assistant, content := cs "Error: rate limited",
        sessionId := none, reasoning := none, userQuery := some (cs "q"),
        metadata := (none : Option Nat), scratchpad := none,
        tool_response := none } false = true ∧
    ttsShown
      { id := [], role := Role.assistant, content := cs "All good",
        sessionId := none, reasoning := none, userQuery := none,
        metadata := (none : Option Nat), scratchpad := none,
        tool_response := none } false = true := by
  have h := @c10_error_routing Nat
  refine ⟨(h.2.1 _ (by decide)).1, h.2.2.1 _ (by decide) (by decide), ?_⟩
  · exact (h.2.2.2.1 _ (by decide)).2.2


/-! ### C7: reset closes, clears, reconnects -/

/-- C7.  Resetting while the connection is open performs, in one handler
invocation (so with no observable half-reset state), the full reset: the
prior handle is closed in the ledger, every piece of session state is
cleared — empty message list, no streaming draft, empty reasoning draft,
no session id, connection-health flag off, input and loading cleared — and
a new connection handle is opened whose id differs from the prior one. -/
theorem c7_reset_session {J : Type} (st : SystemState J) (i : Nat)
    (href : st.wsRef = some i) (hlen : i < st.handles.length)
    (hopen : st.handles.getD i .closed = .opened) :
    (handleResetSession st).messages = [] ∧
    (handleResetSession st).streamingMessage = none ∧
    (handleResetSession st).streamingReasoning = [] ∧
    (handleResetSession st).inputValue = [] ∧
    (handleResetSession st).isLoading = false ∧
    (handleResetSession st).currentSessionId = none ∧
    (handleResetSession st).wsConnected = false ∧
    (handleResetSession st).wsRef = some st.handles.length ∧
    st.handles.length ≠ i ∧
    (handleResetSession st).handles.getD i .closed = .closed ∧
    (handleResetSession st).handles.getD st.handles.length .closed =
      .connecting := by
  have hs_eq :
      (match st.wsRef with
        | some k =>
          if st.handles.getD k .closed = .opened then st.handles.set k .closed
          else st.handles
        | none => st.handles) = st.handles.set i .closed := by
    rw [href]
    exact if_pos hopen
  have hset_len : (st.handles.set i .closed).length = st.handles.length := by
    simp
  have hi' : i < (st.handles.set i .closed).length := by simpa using hlen
  refine ⟨rfl, rfl, rfl, rfl, rfl, rfl, rfl, ?_, (Nat.ne_of_lt hlen).symm,
    ?_, ?_⟩
  · simp only [handleResetSession, hs_eq, hset_len]
  · simp only [handleResetSession, hs_eq]
    simp [List.getD_eq_getElem?_getD, List.getElem?_append_left hi',
      List.getElem?_set_self hlen]
  · simp only [handleResetSession, hs_eq]
    rw [← hset_len]
    simp [List.getD_eq_getElem?_getD, List.getElem?_concat_length]

/-- Witness for C7 on the demo session. -/
theorem c7_reset_session_witness :
    (handleResetSession demoState).messages = [] ∧
    (handleResetSession demoState).streamingMessage = none ∧
    (handleResetSession demoState).streamingReasoning = [] ∧
    (handleResetSession demoState).inputValue = [] ∧
    (handleResetSession demoState).isLoading = false ∧
    (handleResetSession demoState).currentSessionId = none ∧
    (handleResetSession demoState).wsConnected = false ∧
    (handleResetSession demoState).wsRef = some demoState.handles.length ∧
    demoState.handles.length ≠ 0 ∧
    (handleResetSession demoState).handles.getD 0 .closed = .closed ∧
    (handleResetSession demoState).handles.getD demoState.handles.length
      .closed = .connecting :=
  c7_reset_session demoState 0 (by decide) (by decide) (by decide)


/-! ### Frame-processing frame conditions (for C5) -/

/-- Frame handling never touches the input, the error notice, the
connection fields, the outbound trace, the clock, or the speech/copy UI
flags. -/
theorem handleFrame_const (parse : Str → Option J) (f : Str)
    (st : SystemState J) :
    (handleFrame parse f st).inputValue = st.inputValue ∧
    (handleFrame parse f st).speechError = st.speechError ∧
    (handleFrame parse f st).wsConnected = st.wsConnected ∧
    (handleFrame parse f st).wsRef = st.wsRef ∧
    (handleFrame parse f st).handles = st.handles ∧
    (handleFrame parse f st).sentPayloads = st.sentPayloads ∧
    (handleFrame parse f st).now = st.now := by
  cases h : classifyFrame f <;> simp [handleFrame, h]
  case metadataReceived p => cases parse p <;> simp
  case scratchpadReceived p => cases parse p <;> simp
  case toolResponseReceived p => cases parse p <;> simp

/-- `processFrames` version of `handleFrame_const`. -/
theorem processFrames_const (parse : Str → Option J) (fs : List Str)
    (st : SystemState J) :
    (processFrames parse fs st).inputValue = st.inputValue ∧
    (processFrames parse fs st).speechError = st.speechError ∧
    (processFrames parse fs st).wsConnected = st.wsConnected ∧
    (processFrames parse fs st).wsRef = st.wsRef ∧
    (processFrames parse fs st).handles = st.handles ∧
    (processFrames parse fs st).sentPayloads = st.sentPayloads ∧
    (processFrames parse fs st).now = st.now := by
  induction fs generalizing st with
  | nil => simp [processFrames]
  | cons f fsI ih =>
    simp only [processFrames, List.foldl_cons] at ih ⊢
    have hc := handleFrame_const parse f st
    have hr := ih (handleFrame parse f st)
    exact ⟨hr.1.trans hc.1, hr.2.1.trans hc.2.1, hr.2.2.1.trans hc.2.2.1,
      hr.2.2.2.1.trans hc.2.2.2.1, hr.2.2.2.2.1.trans hc.2.2.2.2.1,
      hr.2.2.2.2.2.1.trans hc.2.2.2.2.2.1,
      hr.2.2.2.2.2.2.trans hc.2.2.2.2.2.2⟩

/-- Only `[DONE]` adds to the message list. -/
theorem handleFrame_messages (parse : Str → Option J) (f : Str)
    (st : SystemState J) (h : classifyFrame f ≠ .streamComplete) :
    (handleFrame parse f st).messages = st.messages := by
  cases hclass : classifyFrame f <;> simp [handleFrame, hclass]
  case streamComplete => exact absurd hclass h
  case metadataReceived p => cases parse p <;> simp
  case scratchpadReceived p => cases parse p <;> simp
  case toolResponseReceived p => cases parse p <;> simp

/-- Only `[SESSION_ID]` changes the current session id. -/
theorem handleFrame_sessionId (parse : Str → Option J) (f : Str)
    (st : SystemState J)
    (h : ∀ sid, classifyFrame f ≠ .sessionIdReceived sid) :
    (handleFrame parse f st).currentSessionId = st.currentSessionId := by
  cases hclass : classifyFrame f <;> simp [handleFrame, hclass]
  case sessionIdReceived sid => exact absurd hclass (h sid)
  case metadataReceived p => cases parse p <;> simp
  case scratchpadReceived p => cases parse p <;> simp
  case toolResponseReceived p => cases parse p <;> simp

/-- Over a frame list with no `[DONE]` and no `[SESSION_ID]`, the message
list and the current session id are untouched. -/
theorem processFrames_mid_turn (parse : Str → Option J) (fs : List Str)
    (st : SystemState J)
    (hfs : ∀ f ∈ fs, classifyFrame f ≠ .streamComplete ∧
      ∀ sid, classifyFrame f ≠ .sessionIdReceived sid) :
    (processFrames parse fs st).messages = st.messages ∧
    (processFrames parse fs st).currentSessionId = st.currentSessionId := by
  induction fs generalizing st with
  | nil => simp [processFrames]
  | cons f fsI ih =>
    have hf := hfs f (by simp)
    simp only [processFrames, List.foldl_cons] at ih ⊢
    have hr := ih (handleFrame parse f st) (fun g hg => hfs g (by simp [hg]))
    exact ⟨hr.1.trans (handleFrame_messages parse f st hf.1),
      hr.2.trans (handleFrame_sessionId parse f st hf.2)⟩

/-- Retry with a non-blank query from a not-loading state with an open
connection is exactly a submit from the pruned state. -/
theorem handleRetry_eq_send (props : Props) (q : Str) (st : SystemState J)
    (hq : isBlank q = false) (hload : st.isLoading = false)
    (hws : wsOpenB st = true) :
    handleRetry props q st =
      sendMessageToWebSocket props q
        { st with
            messages := st.messages.dropLast
            inputValue := q
            streamingMessage := none } := by
  have hq' : ¬q = [] := by
    intro h
    rw [h] at hq
    simp [isBlank] at hq
  simp [handleRetry, handleSubmit, hq', hq, hload]
  intro hcontra
  have hx : wsOpenB st = false := hcontra
  rw [hws] at hx
  exact Bool.noConfusion hx

/-- Submitting from two states that agree on everything a submit does not
overwrite produces the same state up to the outbound trace. -/
theorem sendMessage_congr (props : Props) (q : Str) (st1 st2 : SystemState J)
    (hm : st1.messages = st2.messages)
    (hsm : st1.streamingMessage = st2.streamingMessage)
    (hcs : st1.currentSessionId = st2.currentSessionId)
    (hse : st1.speechError = st2.speechError)
    (hwc : st1.wsConnected = st2.wsConnected)
    (hwr : st1.wsRef = st2.wsRef)
    (hh : st1.handles = st2.handles)
    (hn : st1.now = st2.now) :
    { sendMessageToWebSocket props q st1 with sentPayloads := [] } =
      { sendMessageToWebSocket props q st2 with sentPayloads := [] } := by
  simp only [sendMessageToWebSocket]
  rw [hm, hsm, hcs, hse, hwc, hwr, hh, hn]

/-! ### C5: retry refines a fresh submission -/

/-- C5.  After a turn that was submitted from an idle state, streamed any
mid-turn frames (no `[DONE]`, no `[SESSION_ID]`) and ended in an `[ERROR]`
frame, triggering Retry with the original query removes the failed turn's
artifacts (the trailing user message of the list and the error draft),
re-populates the input and re-runs the submit path, producing exactly the
state a fresh user-initiated submission of the same query from the
pre-turn state produces — the same new user message, the same fresh turn
accumulators, and the same single new outbound request — the only
difference being that the outbound trace also keeps the failed turn's
earlier request. -/
theorem c5_retry_refines_fresh_submit {J : Type} (parse : Str → Option J)
    (props : Props) (q : Str) (S0 : SystemState J) (fs : List Str)
    (rest : Str)
    (hq : isBlank q = false) (hload : S0.isLoading = false)
    (hdraft : S0.streamingMessage = none) (hws : wsOpenB S0 = true)
    (hfs : ∀ f ∈ fs, classifyFrame f ≠ .streamComplete ∧
      ∀ sid, classifyFrame f ≠ .sessionIdReceived sid) :
    { handleRetry props q
        (handleFrame parse (cs "[ERROR]" ++ rest)
          (processFrames parse fs (sendMessageToWebSocket props q S0))) with
        sentPayloads := [] } =
      { handleSubmit props (some q) { S0 with inputValue := q } with
          sentPayloads := [] } ∧
    (handleRetry props q
        (handleFrame parse (cs "[ERROR]" ++ rest)
          (processFrames parse fs
            (sendMessageToWebSocket props q S0)))).sentPayloads =
      S0.sentPayloads ++ [mkPayload props q, mkPayload props q] ∧
    (handleSubmit props (some q) { S0 with inputValue := q }).sentPayloads =
      S0.sentPayloads ++ [mkPayload props q] := by
  have hq' : ¬q = [] := by
    intro h
    rw [h] at hq
    simp [isBlank] at hq
  set S1 := sendMessageToWebSocket props q S0 with hS1
  set S2 := processFrames parse fs S1 with hS2
  set Serr := handleFrame parse (cs "[ERROR]" ++ rest) S2 with hSerr
  have hmid := processFrames_mid_turn parse fs S1 hfs
  have hconstF := processFrames_const parse fs S1
  have hconstE := handleFrame_const parse (cs "[ERROR]" ++ rest) S2
  have herr_ne : classifyFrame (cs "[ERROR]" ++ rest) ≠ .streamComplete := by
    rw [classify_streamError_append]
    simp
  have herr_sid : ∀ sid,
      classifyFrame (cs "[ERROR]" ++ rest) ≠ .sessionIdReceived sid := by
    intro sid
    rw [classify_streamError_append]
    simp
  have hmsgs : Serr.messages = S0.messages ++
      [{ id := mkUserId S0.now, role := .user, content := q,
          sessionId := none, reasoning := none, userQuery := none,
          metadata := none, scratchpad := none, tool_response := none }] := by
    rw [hSerr, handleFrame_messages parse _ S2 herr_ne, hS2, hmid.1, hS1]
    simp [sendMessageToWebSocket]
  have hsid : Serr.currentSessionId = S0.currentSessionId := by
    rw [hSerr, handleFrame_sessionId parse _ S2 herr_sid, hS2, hmid.2]
    rfl
  have hloadE : Serr.isLoading = false := by
    rw [hSerr]
    simp [handleFrame, classify_streamError_append]
  have hsent : Serr.sentPayloads = S0.sentPayloads ++ [mkPayload props q] := by
    rw [hSerr, hconstE.2.2.2.2.2.1, hS2, hconstF.2.2.2.2.2.1]
    rfl
  have hnow : Serr.now = S0.now := by
    rw [hSerr, hconstE.2.2.2.2.2.2, hS2, hconstF.2.2.2.2.2.2]
    rfl
  have hse : Serr.speechError = S0.speechError := by
    rw [hSerr, hconstE.2.1, hS2, hconstF.2.1]
    rfl
  have hwc : Serr.wsConnected = S0.wsConnected := by
    rw [hSerr, hconstE.2.2.1, hS2, hconstF.2.2.1]
    rfl
  have hwr : Serr.wsRef = S0.wsRef := by
    rw [hSerr, hconstE.2.2.2.1, hS2, hconstF.2.2.2.1]
    rfl
  have hh : Serr.handles = S0.handles := by
    rw [hSerr, hconstE.2.2.2.2.1, hS2, hconstF.2.2.2.2.1]
    rfl
  have hwsE : wsOpenB Serr = true := by
    have : wsOpenB Serr = wsOpenB S0 := by
      unfold wsOpenB
      rw [hwr, hh]
    rw [this]
    exact hws
  have hretry := handleRetry_eq_send props q Serr hq hloadE hwsE
  have hfresh : handleSubmit props (some q) { S0 with inputValue := q } =
      sendMessageToWebSocket props q { S0 with inputValue := q } := by
    simp [handleSubmit, hq', hq, hload]
    intro hcontra
    have hx : wsOpenB S0 = false := hcontra
    rw [hws] at hx
    exact Bool.noConfusion hx
  refine ⟨?_, ?_, ?_⟩
  · rw [hretry, hfresh]
    exact sendMessage_congr props q _ _
      (by simp [hmsgs, List.dropLast_concat]) (by simp [hdraft])
      (by simp [hsid]) (by simp [hse]) (by simp [hwc]) (by simp [hwr])
      (by simp [hh]) (by simp [hnow])
  · rw [hretry]
    simp [sendMessageToWebSocket, hsent]
  · rw [hfresh]
    simp [sendMessageToWebSocket]

/-- Witness for C5: a concrete failed turn replayed. -/
theorem c5_retry_refines_fresh_submit_witness :
    { handleRetry demoProps (cs "q")
        (handleFrame parseNone (cs "[ERROR]" ++ cs "rate limited")
          (processFrames parseNone [cs "partial"]
            (sendMessageToWebSocket demoProps (cs "q") demoState))) with
        sentPayloads := [] } =
      { handleSubmit demoProps (some (cs "q"))
          { demoState with inputValue := cs "q" } with
          sentPayloads := [] } :=
  (c5_retry_refines_fresh_submit parseNone demoProps (cs "q") demoState
    [cs "partial"] (cs "rate limited") (by decide) (by decide) (by decide)
    (by decide) (by
      intro f hf
      rw [List.mem_singleton] at hf
      subst hf
      have hcl : classifyFrame (cs "partial") = .contentChunk (cs "partial") := by
        decide
      constructor
      · rw [hcl]
        simp
      · intro sid
        rw [hcl]
        simp)).1

end AryaXAI
